import Mathlib

/-!
Shallow embedding of the aiexec backwards-compatibility layer
(`src/backend/base/aiexec/__init__.py`), the settings flag
(`src/lfx/src/lfx/settings.py`) and the JSON flow test helper
(`src/backend/tests/integration/utils.py`).

Python values reachable through the layer are abstracted by `PyVal`;
module namespaces (`__dict__` of a module) are association lists from
attribute names to values; `sys.modules` is an association list from
dotted module names to `Module` objects.  Exceptions are modelled by
`Except PyErr`; in-place object mutation is modelled by explicit state
passing (each operation returns the updated object alongside its result).
-/

/-- Abstract Python values.  `PyVal.module s` is a reference to the module
registered under the dotted name `s` (object identity is modelled by the
name under which the module object is installed). -/
inductive PyVal where
  | int : Int → PyVal
  | str : String → PyVal
  | module : String → PyVal
  deriving DecidableEq, Repr

/-- The Python exceptions the embedded code can raise.
`importError` is the spec's `ResolutionError`; `attributeError` is the
spec's `AttributeMissing`; `moduleNotFound` models the generic
`ModuleNotFoundError` raised when a dotted name is absent from
`sys.modules` and cannot be imported at all. -/
inductive PyErr where
  | importError : String → PyErr
  | attributeError : String → PyErr
  | moduleNotFound : String → PyErr
  | indexError : PyErr
  | valueError : String → PyErr
  deriving DecidableEq, Repr

/-- Does the spec's `ResolutionError` (the `ImportError` raised by
`_get_lfx_module`) describe this exception? -/
def isResolutionError : PyErr → Bool
  | .importError _ => true
  | _ => false

/-- A module namespace: the `__dict__` of a Python module, as an
association list from attribute names to values. -/
abbrev Namespace := List (String × PyVal)

/-- Python dict lookup `d[k]` returning `none` when the key is absent. -/
def alookup {β : Type} (k : String) : List (String × β) → Option β
  | [] => none
  | (k1, v) :: rest => if k = k1 then some v else alookup k rest

/-- Removes every binding of `k` (helper for `alistInsert`). -/
def alistErase {β : Type} (k : String) : List (String × β) → List (String × β)
  | [] => []
  | (k1, v) :: rest =>
    if k1 = k then alistErase k rest else (k1, v) :: alistErase k rest

/-- Python dict assignment `d[k] = v` (replaces any existing binding). -/
def alistInsert {β : Type} (d : List (String × β)) (k : String) (v : β) :
    List (String × β) :=
  (k, v) :: alistErase k d

/-- The attribute names of a namespace, as produced by `dir(module)`. -/
def nsKeys (ns : Namespace) : List String := ns.map (·.1)

/-- A single-quote character, kept out of string literals. -/
def squote : Char := '\x27'

/-- `str.split(".")` — splits a dotted name at every dot. -/
def splitDotsAux : List Char → List Char → List String
  | [], acc => [String.mk acc.reverse]
  | c :: rest, acc =>
    if c = '.' then String.mk acc.reverse :: splitDotsAux rest []
    else splitDotsAux rest (c :: acc)

/-- `name.split(".")` on a dotted module name. -/
def splitDots (s : String) : List String := splitDotsAux s.data []

/-- `".".join(parts[:-1])` — the dotted name of the parent module. -/
def parentOf (s : String) : String :=
  String.intercalate "." (splitDots s).dropLast

/-- `parts[-1]` — the last segment of a dotted module name. -/
def lastSeg (s : String) : String := ((splitDots s).getLast?).getD s

/-- `str.lower()` restricted to the embedded alphabet (ASCII); used by the
settings flag computation. -/
def lowerStr (s : String) : String := String.mk (s.data.map Char.toLower)

/-- The host namespace-resolution primitives the layer delegates to:
`findSpec n` is `importlib.util.find_spec(n)` — `Except.error ()` when the
probe itself raises `ImportError`/`ValueError`, `.ok false` when it
returns `None`, `.ok true` when a spec is found; `importMod n` is
`importlib.import_module(n)` — `none` when the actual load raises
`ImportError`, otherwise the loaded module's namespace. -/
structure Env where
  findSpec : String → Except Unit Bool
  importMod : String → Option Namespace

/-- `class AiexecCompatibilityModule(ModuleType)`: `name` is `__name__`,
`lfx_module_name` is `self._lfx_module_name`, `lfx_module` is the
`self._lfx_module` cache (initially `None`), and `dict` is the portion of
the module's `__dict__` filled by the attribute cache (`setattr` in
`__getattr__`), initially empty. -/
structure AiexecCompatibilityModule where
  name : String
  lfx_module_name : String
  lfx_module : Option Namespace
  dict : Namespace
  deriving DecidableEq, Repr

/-- `AiexecCompatibilityModule.__init__(name, lfx_module_name)`. -/
def mkCompat (name lfx_module_name : String) : AiexecCompatibilityModule :=
  ⟨name, lfx_module_name, none, []⟩

/-- The message of the `ImportError` raised by `_get_lfx_module`. -/
def cannotImportMsg (lfx_module_name name : String) : String :=
  "Cannot import " ++ lfx_module_name ++ " for backwards compatibility with "
    ++ name

/-- The message of the `AttributeError` raised by `__getattr__`:
`module '<name>' has no attribute '<attr>'`. -/
def noAttributeMsg (name attr : String) : String :=
  "module " ++ String.singleton squote ++ name ++ String.singleton squote
    ++ " has no attribute " ++ String.singleton squote ++ attr
    ++ String.singleton squote

/-- `AiexecCompatibilityModule._get_lfx_module`: lazily resolve and cache
the lfx module; on `ImportError` from `import_module`, re-raise an
`ImportError` with the compatibility message.  The updated `self` is
returned alongside the result (in Python the cache fill mutates `self`
in place, so the mutation survives even when a caller later fails). -/
def getLfxModule (env : Env) (self : AiexecCompatibilityModule) :
    Except PyErr Namespace × AiexecCompatibilityModule :=
  match self.lfx_module with
  | some ns => (.ok ns, self)
  | none =>
    match env.importMod self.lfx_module_name with
    | some ns => (.ok ns, { self with lfx_module := some ns })
    | none =>
      (.error (.importError (cannotImportMsg self.lfx_module_name self.name)),
       self)

/-- Attribute access `getattr(self, a)` on a compatibility module.
Python first consults the module `__dict__` (the cache); only on a miss
does it invoke `AiexecCompatibilityModule.__getattr__`, which resolves the
lfx module, forwards the lookup, raises `AttributeError` when the
attribute is absent there, and otherwise caches the value via `setattr`
before returning it. -/
def compatGetattr (env : Env) (self : AiexecCompatibilityModule)
    (a : String) : Except PyErr PyVal × AiexecCompatibilityModule :=
  match alookup a self.dict with
  | some v => (.ok v, self)
  | none =>
    match getLfxModule env self with
    | (.error e, self1) => (.error e, self1)
    | (.ok ns, self1) =>
      match alookup a ns with
      | none => (.error (.attributeError (noAttributeMsg self1.name a)), self1)
      | some v => (.ok v, { self1 with dict := alistInsert self1.dict a v })

/-- `AiexecCompatibilityModule.__dir__`: `dir(lfx_module)` when resolution
succeeds; `except ImportError: return []`. -/
def compatDir (env : Env) (self : AiexecCompatibilityModule) :
    Except PyErr (List String) × AiexecCompatibilityModule :=
  match getLfxModule env self with
  | (.ok ns, self1) => (.ok (nsKeys ns), self1)
  | (.error e, self1) =>
    match e with
    | .importError _ => (.ok [], self1)
    | _ => (.error e, self1)

/-- An entry of `sys.modules`: either a compatibility module or an
ordinary module (`real name namespace`), such as the executing `aiexec`
package or a module loaded from a physical file. -/
inductive PyModule where
  | compat : AiexecCompatibilityModule → PyModule
  | real : String → Namespace → PyModule
  deriving DecidableEq, Repr

/-- `setattr(module, k, v)` — writes into the module's `__dict__`. -/
def moduleSetAttr (m : PyModule) (k : String) (v : PyVal) : PyModule :=
  match m with
  | .compat cm => .compat { cm with dict := alistInsert cm.dict k v }
  | .real n ns => .real n (alistInsert ns k v)

/-- Plain `__dict__` lookup on a module, with no forwarding — used to
state which attributes have physically been set on an object. -/
def moduleAttrLookup (m : PyModule) (k : String) : Option PyVal :=
  match m with
  | .compat cm => alookup k cm.dict
  | .real _ ns => alookup k ns

/-- `getattr(module, a)`: a compatibility module forwards through
`compatGetattr`; an ordinary module raises `AttributeError` when the
attribute is not in its `__dict__`. -/
def moduleGetattr (env : Env) (m : PyModule) (a : String) :
    Except PyErr PyVal × PyModule :=
  match m with
  | .compat cm =>
    let r := compatGetattr env cm a
    (r.1, .compat r.2)
  | .real n ns =>
    match alookup a ns with
    | some v => (.ok v, m)
    | none => (.error (.attributeError (noAttributeMsg n a)), m)

/-- The global module registry `sys.modules`. -/
abbrev SysModules := List (String × PyModule)

/-- Attribute access on the module registered under a dotted name: the
way a caller reaches the layer after setup (`aiexec.base.data.utils.f`).
When the dotted name is absent from `sys.modules`, resolving it fails
with `ModuleNotFoundError` before any attribute lookup happens. -/
def accessAttr (env : Env) (sysm : SysModules) (modName a : String) :
    Except PyErr PyVal :=
  match alookup modName sysm with
  | none => .error (.moduleNotFound modName)
  | some m => (moduleGetattr env m a).1

/-- The `module_mappings` dict of `_setup_compatibility_modules`:
shadow `aiexec.*` name → canonical `lfx.*` name, in source order. -/
def module_mappings : List (String × String) :=
  [("aiexec.base", "lfx.base"),
   ("aiexec.inputs", "lfx.inputs"),
   ("aiexec.inputs.inputs", "lfx.inputs.inputs"),
   ("aiexec.schema", "lfx.schema"),
   ("aiexec.schema.data", "lfx.schema.data"),
   ("aiexec.schema.serialize", "lfx.schema.serialize"),
   ("aiexec.template", "lfx.template"),
   ("aiexec.template.field", "lfx.template.field"),
   ("aiexec.template.field.base", "lfx.template.field.base"),
   ("aiexec.components", "lfx.components"),
   ("aiexec.components.helpers", "lfx.components.helpers"),
   ("aiexec.components.helpers.calculator_core",
    "lfx.components.helpers.calculator_core"),
   ("aiexec.components.helpers.create_list",
    "lfx.components.helpers.create_list"),
   ("aiexec.components.helpers.current_date",
    "lfx.components.helpers.current_date"),
   ("aiexec.components.helpers.id_generator",
    "lfx.components.helpers.id_generator"),
   ("aiexec.components.helpers.memory", "lfx.components.helpers.memory"),
   ("aiexec.components.helpers.output_parser",
    "lfx.components.helpers.output_parser"),
   ("aiexec.components.helpers.store_message",
    "lfx.components.helpers.store_message"),
   ("aiexec.base.agents", "lfx.base.agents"),
   ("aiexec.base.chains", "lfx.base.chains"),
   ("aiexec.base.data", "lfx.base.data"),
   ("aiexec.base.data.utils", "lfx.base.data.utils"),
   ("aiexec.base.document_transformers", "lfx.base.document_transformers"),
   ("aiexec.base.embeddings", "lfx.base.embeddings"),
   ("aiexec.base.flow_processing", "lfx.base.flow_processing"),
   ("aiexec.base.io", "lfx.base.io"),
   ("aiexec.base.io.chat", "lfx.base.io.chat"),
   ("aiexec.base.io.text", "lfx.base.io.text"),
   ("aiexec.base.langchain_utilities", "lfx.base.langchain_utilities"),
   ("aiexec.base.memory", "lfx.base.memory"),
   ("aiexec.base.models", "lfx.base.models"),
   ("aiexec.base.models.google_generative_ai_constants",
    "lfx.base.models.google_generative_ai_constants"),
   ("aiexec.base.models.openai_constants", "lfx.base.models.openai_constants"),
   ("aiexec.base.models.anthropic_constants",
    "lfx.base.models.anthropic_constants"),
   ("aiexec.base.models.aiml_constants", "lfx.base.models.aiml_constants"),
   ("aiexec.base.models.aws_constants", "lfx.base.models.aws_constants"),
   ("aiexec.base.models.groq_constants", "lfx.base.models.groq_constants"),
   ("aiexec.base.models.novita_constants", "lfx.base.models.novita_constants"),
   ("aiexec.base.models.ollama_constants", "lfx.base.models.ollama_constants"),
   ("aiexec.base.models.sambanova_constants",
    "lfx.base.models.sambanova_constants"),
   ("aiexec.base.prompts", "lfx.base.prompts"),
   ("aiexec.base.prompts.api_utils", "lfx.base.prompts.api_utils"),
   ("aiexec.base.prompts.utils", "lfx.base.prompts.utils"),
   ("aiexec.base.textsplitters", "lfx.base.textsplitters"),
   ("aiexec.base.tools", "lfx.base.tools"),
   ("aiexec.base.vectorstores", "lfx.base.vectorstores")]

/-- Lines 135-145 of the source: for the five top-level shadow names the
loop additionally stores the new module on `current_module`
(`current_module.base = compat_module`, etc.).  `current_module` is
`sys.modules["aiexec"]`, bound before the loop; `_setup_compatibility_modules`
only executes while the `aiexec` package is in `sys.modules` (it runs at
the end of that package's own import), so the name is always found
there; the update is modelled as re-binding the registry entry. -/
def specialTopLevelAttr (sysm : SysModules) (aiexec_name : String) :
    SysModules :=
  if aiexec_name = "aiexec.base" ∨ aiexec_name = "aiexec.inputs"
      ∨ aiexec_name = "aiexec.schema" ∨ aiexec_name = "aiexec.template"
      ∨ aiexec_name = "aiexec.components" then
    match alookup "aiexec" sysm with
    | some pm =>
      alistInsert sysm "aiexec"
        (moduleSetAttr pm (lastSeg aiexec_name) (.module aiexec_name))
    | none => sysm
  else sysm

/-- One iteration of the first loop of `_setup_compatibility_modules`
(lines 117-148): skip when the shadow name is already in `sys.modules`;
probe the lfx module with `find_spec` (an `ImportError`/`ValueError`
from the probe is caught and the entry skipped; `None` also skips);
otherwise create the compatibility module, install it under the shadow
name, link it as an attribute of its parent when the parent is already
registered, and apply the special top-level handling. -/
def registerEntry (env : Env) (sysm : SysModules)
    (aiexec_name lfx_name : String) : SysModules :=
  if (alookup aiexec_name sysm).isSome then sysm
  else
    match env.findSpec lfx_name with
    | .error _ => sysm
    | .ok false => sysm
    | .ok true =>
      let compat_module := mkCompat aiexec_name lfx_name
      let sysm1 := alistInsert sysm aiexec_name (.compat compat_module)
      let parts := splitDots aiexec_name
      let sysm2 :=
        if parts.length > 1 then
          match alookup (parentOf aiexec_name) sysm1 with
          | some pm =>
            alistInsert sysm1 (parentOf aiexec_name)
              (moduleSetAttr pm (lastSeg aiexec_name) (.module aiexec_name))
          | none => sysm1
        else sysm1
      specialTopLevelAttr sysm2 aiexec_name

/-- The host primitives used by the physical-override loop:
`pathExists p` is `Path(p).exists()`; `specOk p` is
`spec_from_file_location(...) is not None and spec.loader is not None`;
`execModule p` is `spec.loader.exec_module(module)` — `none` when
executing the file raises one of the exception types the surrounding
`except (ImportError, AttributeError)` catches, otherwise the namespace
the module ends up with. -/
structure FS where
  pathExists : String → Bool
  specOk : String → Bool
  execModule : String → Option Namespace

/-- One iteration of the second loop of `_setup_compatibility_modules`
(lines 158-211), common to its three hard-coded entries: skip when the
shadow name is already in `sys.modules`; skip when the file does not
exist or no usable loader spec is obtained; otherwise create the fresh
module via `module_from_spec`, install it in `sys.modules`, then execute
the file (note the order: the registry insertion happens before
`exec_module`; a caught execution failure leaves the fresh entry in
place), and finally link the module on its parent when the parent is
registered. -/
def registerPhysicalOverride (fs : FS) (sysm : SysModules)
    (aiexec_name path parent_name attr_seg : String) : SysModules :=
  if (alookup aiexec_name sysm).isSome then sysm
  else if fs.pathExists path then
    if fs.specOk path then
      let sysm1 := alistInsert sysm aiexec_name (.real aiexec_name [])
      match fs.execModule path with
      | none => sysm1
      | some ns =>
        let sysm2 := alistInsert sysm1 aiexec_name (.real aiexec_name ns)
        match alookup parent_name sysm2 with
        | some pm =>
          alistInsert sysm2 parent_name
            (moduleSetAttr pm attr_seg (.module aiexec_name))
        | none => sysm2
    else sysm
  else sysm

/-- The `aiexec_only_modules` entries (lines 152-156) with the file path
(relative to the package directory), parent name and attribute segment
each branch of the loop hard-codes. -/
def aiexec_only_modules : List (String × String × String × String) :=
  [("aiexec.base.data.kb_utils", "base/data/kb_utils.py",
    "aiexec.base.data", "kb_utils"),
   ("aiexec.base.knowledge_bases", "base/knowledge_bases/__init__.py",
    "aiexec.base", "knowledge_bases"),
   ("aiexec.components.knowledge_bases",
    "components/knowledge_bases/__init__.py",
    "aiexec.components", "knowledge_bases")]

/-- `_setup_compatibility_modules`: both loops, in source order. -/
def setup_compatibility_modules (env : Env) (fs : FS) (sysm0 : SysModules) :
    SysModules :=
  let sysm1 := module_mappings.foldl
    (fun sm p => registerEntry env sm p.1 p.2) sysm0
  aiexec_only_modules.foldl
    (fun sm e => registerPhysicalOverride fs sm e.1 e.2.1 e.2.2.1 e.2.2.2)
    sysm1

/-- `lfx.settings.DEV`, computed from the process environment (modelled
as a partial map from variable names to values):
`os.getenv("AIEXEC_DEV", "false").lower() == "true"`. -/
def DEV (getenv : String → Option String) : Bool :=
  lowerStr ((getenv "AIEXEC_DEV").getD "false") == "true"

/-- One node of a serialized flow, keeping the parts the helper reads:
`nid` is `node["id"]` and `ntype` is `node["data"]["type"]`. -/
structure FlowNode where
  nid : String
  ntype : String
  deriving DecidableEq, Repr

/-- `JSONFlowHelper`: `nodes` is `self.json["data"]["nodes"]`. -/
structure JSONFlowHelper where
  nodes : List FlowNode
  deriving DecidableEq, Repr

/-- `JSONFlowHelper.get_components_by_type`: the list comprehension
filtering nodes whose `data.type` equals the requested type. -/
def get_components_by_type (self : JSONFlowHelper) (component_type : String) :
    List FlowNode :=
  self.nodes.filter (fun node => node.ntype = component_type)

/-- The `ValueError` message of `get_component_by_type` when no node
matches.  The Python code interpolates `', '.join(available)` where
`available` is a set, whose iteration order is unspecified; the model
fixes one order (first occurrence), which no claim depends on. -/
def notFoundMsg (self : JSONFlowHelper) (component_type : String) : String :=
  "Component of type " ++ component_type ++ " not found. Available: "
    ++ String.intercalate ", " (self.nodes.map (·.ntype)).dedup

/-- `JSONFlowHelper.get_component_by_type`: `next(...)` over the matching
nodes with default `None`, then `ValueError` when nothing was found. -/
def get_component_by_type (self : JSONFlowHelper) (component_type : String) :
    Except PyErr FlowNode :=
  match self.nodes.find? (fun node => node.ntype = component_type) with
  | none => .error (.valueError (notFoundMsg self component_type))
  | some node => .ok node

/-- `JSONFlowHelper.get_single_component`: collect the matching nodes,
raise `ValueError` when more than one matches, otherwise return
`components[0]` — which, on an empty list, raises `IndexError` (Python
list indexing out of range). -/
def get_single_component (self : JSONFlowHelper) (component_type : String) :
    Except PyErr FlowNode :=
  let components := get_components_by_type self component_type
  if components.length > 1 then
    .error (.valueError
      ("Multiple components of type " ++ component_type ++ " found"))
  else
    match components with
    | [] => .error .indexError
    | c :: _ => .ok c

theorem alookup_insert_self {β : Type} (d : List (String × β)) (k : String)
    (v : β) : alookup k (alistInsert d k v) = some v := by
  simp [alistInsert, alookup]

theorem alookup_erase_ne {β : Type} (d : List (String × β))
    {k k' : String} (h : k' ≠ k) :
    alookup k' (alistErase k d) = alookup k' d := by
  induction d with
  | nil => rfl
  | cons p rest ih =>
    obtain ⟨k1, v1⟩ := p
    by_cases hpk : k1 = k
    · have hk : ¬ k' = k1 := fun hk => h (hk.trans hpk)
      simp [alistErase, hpk, alookup, hk, ih, h]
    · by_cases hk : k' = k1
      · simp [alistErase, hpk, alookup, hk]
      · simp [alistErase, hpk, alookup, hk, ih]

theorem alookup_insert_ne {β : Type} (d : List (String × β))
    {k k' : String} (v : β) (h : k' ≠ k) :
    alookup k' (alistInsert d k v) = alookup k' d := by
  simp only [alistInsert, alookup, if_neg h]
  exact alookup_erase_ne d h

theorem moduleAttrLookup_setAttr_self (m : PyModule) (k : String)
    (v : PyVal) : moduleAttrLookup (moduleSetAttr m k v) k = some v := by
  cases m <;> simp [moduleSetAttr, moduleAttrLookup, alookup_insert_self]

theorem getLfxModule_error_resolution (env : Env)
    (m : AiexecCompatibilityModule) (e : PyErr)
    (h : (getLfxModule env m).1 = .error e) : isResolutionError e = true := by
  unfold getLfxModule at h
  cases hm : m.lfx_module with
  | some ns => simp [hm] at h
  | none =>
    cases hi : env.importMod m.lfx_module_name with
    | some ns => simp [hm, hi] at h
    | none =>
      simp only [hm, hi] at h
      cases h
      rfl

theorem getLfxModule_preserves (env : Env) (m : AiexecCompatibilityModule) :
    (getLfxModule env m).2.name = m.name
      ∧ (getLfxModule env m).2.dict = m.dict := by
  unfold getLfxModule
  cases hm : m.lfx_module with
  | some ns => exact ⟨rfl, rfl⟩
  | none =>
    cases hi : env.importMod m.lfx_module_name with
    | some ns => exact ⟨rfl, rfl⟩
    | none => exact ⟨rfl, rfl⟩

/-- C1: for a registered shadow module (a freshly constructed
`AiexecCompatibilityModule` for shadow name `s` and canonical name `c`)
whose canonical module imports successfully to namespace `ns`, reading
any attribute `a` that exists on `ns` through the shadow module returns
exactly the value that a direct read on the canonical namespace gives. -/
theorem forwarded_attribute_matches_canonical (env : Env) (s c a : String)
    (ns : Namespace) (v : PyVal)
    (h1 : env.importMod c = some ns) (h2 : alookup a ns = some v) :
    (compatGetattr env (mkCompat s c) a).1 = .ok v := by
  simp [compatGetattr, mkCompat, alookup, getLfxModule, h1, h2]

/-- Canonical module for the C1 witness: `lfx.base` with `VALUE = 42`. -/
def envC1 : Env :=
  ⟨fun _ => .ok true,
   fun n => if n = "lfx.base" then some [("VALUE", .int 42)] else none⟩

theorem forwarded_attribute_matches_canonical_witness :
    (compatGetattr envC1 (mkCompat "aiexec.base" "lfx.base") "VALUE").1
      = .ok (.int 42) :=
  forwarded_attribute_matches_canonical envC1 "aiexec.base" "lfx.base"
    "VALUE" [("VALUE", PyVal.int 42)] (PyVal.int 42) rfl rfl

/-- C2: once an attribute read through a shadow module has succeeded, the
value sits in the module's attribute cache, and every subsequent read of
that attribute returns the same cached value with the module unchanged —
uniformly in the environment of the later read, so neither the import
primitive nor the canonical namespace is consulted again, and a canonical
binding mutated after the first access is not observed. -/
theorem cached_attribute_stable (env : Env)
    (m m1 : AiexecCompatibilityModule) (a : String) (v : PyVal)
    (h : compatGetattr env m a = (.ok v, m1)) :
    ∀ env2 : Env, compatGetattr env2 m1 a = (.ok v, m1) := by
  intro env2
  have hd : alookup a m1.dict = some v := by
    unfold compatGetattr at h
    cases hc : alookup a m.dict with
    | some w =>
      simp only [hc, Prod.mk.injEq, Except.ok.injEq] at h
      obtain ⟨hv, hm⟩ := h
      subst hm hv
      exact hc
    | none =>
      simp only [hc] at h
      cases hg : getLfxModule env m with
      | mk r mm =>
        simp only [hg] at h
        cases r with
        | error e => simp at h
        | ok ns =>
          cases hl : alookup a ns with
          | none => simp [hl] at h
          | some w =>
            simp only [hl, Prod.mk.injEq, Except.ok.injEq] at h
            obtain ⟨hv, hm⟩ := h
            rw [← hm]
            simp only []
            rw [alookup_insert_self, hv]
  unfold compatGetattr
  rw [hd]

/-- Environment for the first C2 access: `lfx.base` has `VALUE = 42`. -/
def envC2 : Env :=
  ⟨fun _ => .ok true,
   fun n => if n = "lfx.base" then some [("VALUE", .int 42)] else none⟩

/-- Environment after the canonical namespace mutates: `lfx.base` now
binds `VALUE` to `7`. -/
def envC2mut : Env :=
  ⟨fun _ => .ok true,
   fun n => if n = "lfx.base" then some [("VALUE", .int 7)] else none⟩

/-- The state of the shadow module after the first successful access. -/
def compatC2 : AiexecCompatibilityModule :=
  ⟨"aiexec.base", "lfx.base", some [("VALUE", .int 42)],
   [("VALUE", .int 42)]⟩

theorem cached_attribute_stable_witness :
    compatGetattr envC2mut compatC2 "VALUE" = (.ok (.int 42), compatC2) :=
  cached_attribute_stable envC2 (mkCompat "aiexec.base" "lfx.base")
    compatC2 "VALUE" (PyVal.int 42) rfl envC2mut

/-- C3: when the canonical module of a shadow module resolves to a
namespace on which the requested attribute is absent (and the attribute
is not already cached, i.e. Python's normal lookup misses and
`__getattr__` runs), the access raises the `AttributeError` naming the
shadow module and the attribute, and the attribute cache is unchanged. -/
theorem missing_attribute_raises (env : Env)
    (m : AiexecCompatibilityModule) (a : String) (ns : Namespace)
    (hc : alookup a m.dict = none)
    (hres : (getLfxModule env m).1 = .ok ns)
    (habs : alookup a ns = none) :
    (compatGetattr env m a).1
        = .error (.attributeError (noAttributeMsg m.name a))
      ∧ ((compatGetattr env m a).2).dict = m.dict := by
  have hp := getLfxModule_preserves env m
  unfold compatGetattr
  cases hg : getLfxModule env m with
  | mk r m1 =>
    rw [hg] at hres hp
    simp only at hres hp
    subst hres
    simp [hc, habs, hp.1, hp.2]

/-- Environment for the C3 witness: `lfx.base` exists but is empty. -/
def envC3 : Env :=
  ⟨fun _ => .ok true, fun n => if n = "lfx.base" then some [] else none⟩

theorem missing_attribute_raises_witness :
    (compatGetattr envC3 (mkCompat "aiexec.base" "lfx.base") "GONE").1
        = .error (.attributeError (noAttributeMsg "aiexec.base" "GONE"))
      ∧ ((compatGetattr envC3 (mkCompat "aiexec.base" "lfx.base")
            "GONE").2).dict
        = (mkCompat "aiexec.base" "lfx.base").dict :=
  missing_attribute_raises envC3 (mkCompat "aiexec.base" "lfx.base")
    "GONE" [] rfl rfl rfl

/-- C5: `__dir__` on a shadow module never raises: it returns the
canonical namespace's key listing when resolution succeeds, and the
empty listing when resolution fails, for every environment and every
module state. -/
theorem dir_never_raises (env : Env) (m : AiexecCompatibilityModule) :
    (compatDir env m).1
      = .ok (match (getLfxModule env m).1 with
             | .ok ns => nsKeys ns
             | .error _ => []) := by
  unfold compatDir
  cases hg : getLfxModule env m with
  | mk r m1 =>
    cases r with
    | ok ns => simp [hg]
    | error e =>
      have he : isResolutionError e = true :=
        getLfxModule_error_resolution env m e (by rw [hg])
      cases e with
      | importError msg => simp [hg]
      | attributeError msg => exact absurd he (by simp [isResolutionError])
      | moduleNotFound msg => exact absurd he (by simp [isResolutionError])
      | indexError => exact absurd he (by simp [isResolutionError])
      | valueError msg => exact absurd he (by simp [isResolutionError])

/-- C9: the development-mode flag is true exactly when the environment
variable `AIEXEC_DEV` is set to a value that lowercases to `"true"`,
and defaults to false when the variable is unset. -/
theorem dev_flag_from_env (getenv : String → Option String) :
    (DEV getenv = true
        ↔ ∃ v, getenv "AIEXEC_DEV" = some v ∧ lowerStr v = "true")
      ∧ (getenv "AIEXEC_DEV" = none → DEV getenv = false) := by
  constructor
  · constructor
    · intro h
      cases hg : getenv "AIEXEC_DEV" with
      | none =>
        rw [DEV, hg] at h
        simp only [Option.getD_none] at h
        exact absurd h (by decide)
      | some v =>
        refine ⟨v, rfl, ?_⟩
        rw [DEV, hg] at h
        simpa using h
    · rintro ⟨v, hg, hv⟩
      rw [DEV, hg]
      simp [hv]
  · intro hg
    rw [DEV, hg]
    decide

theorem dev_flag_from_env_witness :
    DEV (fun _ => none) = false :=
  (dev_flag_from_env (fun _ => none)).2 rfl

/-- C10: `get_single_component` on a flow with zero nodes of the
requested type fails with `IndexError` (indexing the empty match list),
not with the descriptive `ValueError` used for multiple matches nor the
one `get_component_by_type` raises for zero matches; with exactly one
match it returns that node; with more than one match it raises the
`ValueError` about multiple components. -/
theorem get_single_component_zero_matches (self : JSONFlowHelper)
    (t : String) :
    (get_components_by_type self t = [] →
       get_single_component self t = .error .indexError
         ∧ get_component_by_type self t
             = .error (.valueError (notFoundMsg self t)))
      ∧ (∀ n, get_components_by_type self t = [n] →
           get_single_component self t = .ok n)
      ∧ (∀ l, get_components_by_type self t = l → 1 < l.length →
           get_single_component self t
             = .error (.valueError
                 ("Multiple components of type " ++ t ++ " found"))) := by
  refine ⟨?_, ?_, ?_⟩
  · intro h
    constructor
    · unfold get_single_component
      rw [h]
      simp
    · unfold get_component_by_type
      have hf : self.nodes.find? (fun node => node.ntype = t) = none := by
        rw [List.find?_eq_none]
        intro x hx
        have := List.filter_eq_nil_iff.mp (by exact h) x hx
        simpa using this
      rw [hf]
  · intro n h
    unfold get_single_component
    rw [h]
    simp
  · intro l h hlen
    unfold get_single_component
    rw [h]
    rw [if_pos hlen]

/-- Flow fixture for the C10 witness: one chat-input node, no
chat-output node. -/
def flowC10 : JSONFlowHelper := ⟨[⟨"n1", "ChatInput"⟩]⟩

theorem get_single_component_zero_matches_witness :
    get_single_component flowC10 "ChatOutput" = .error .indexError ∧
    get_single_component flowC10 "ChatInput" = .ok ⟨"n1", "ChatInput"⟩ :=
  ⟨((get_single_component_zero_matches flowC10 "ChatOutput").1 rfl).1,
   (get_single_component_zero_matches flowC10 "ChatInput").2.1
     ⟨"n1", "ChatInput"⟩ rfl⟩

/-- C6: registration is idempotent for both loops: when the shadow name
is already in `sys.modules`, a registration attempt for it — a redirect
entry with any canonical name, or a physical override with any file
system, path, or parent — leaves the registry exactly as it was: no
second node, no loading, no file read (the result is independent of the
file-system and environment arguments). -/
theorem registration_idempotent (env : Env) (fs : FS) (sysm : SysModules)
    (s c p pn seg : String) (h : (alookup s sysm).isSome = true) :
    registerEntry env sysm s c = sysm
      ∧ registerPhysicalOverride fs sysm s p pn seg = sysm := by
  constructor
  · unfold registerEntry
    rw [if_pos h]
  · unfold registerPhysicalOverride
    rw [if_pos h]

/-- Registry fixture for the C6 witness: `aiexec.base` is registered. -/
def sysmC6 : SysModules :=
  [("aiexec.base", .compat (mkCompat "aiexec.base" "lfx.base"))]

/-- Environment and file system for the C6 witness. -/
def envC6 : Env := ⟨fun _ => .ok true, fun _ => none⟩

def fsC6 : FS := ⟨fun _ => true, fun _ => true, fun _ => some []⟩

theorem registration_idempotent_witness :
    registerEntry envC6 sysmC6 "aiexec.base" "lfx.base" = sysmC6
      ∧ registerPhysicalOverride fsC6 sysmC6 "aiexec.base" "base.py"
          "aiexec" "base" = sysmC6 :=
  registration_idempotent envC6 fsC6 sysmC6 "aiexec.base" "lfx.base"
    "base.py" "aiexec" "base" rfl

/-- Environment for the C4 counterexample: no canonical module exists
(the existence probe returns `None` for every name). -/
def envC4 : Env := ⟨fun _ => .ok false, fun _ => none⟩

/-- C4 counterexample: registering shadow `x.z` against the nonexistent
canonical `p.missing` completes without error as a silent no-op — but a
later attribute access on `x.z` does not raise `ResolutionError` as the
claim states: no node was created, so resolving the name `x.z` itself
fails with a generic `ModuleNotFoundError` before the compatibility
layer is ever involved. -/
theorem unregistered_access_not_resolution_error :
    registerEntry envC4 [] "x.z" "p.missing" = []
      ∧ accessAttr envC4 (registerEntry envC4 [] "x.z" "p.missing")
          "x.z" "VALUE" = .error (.moduleNotFound "x.z")
      ∧ isResolutionError (.moduleNotFound "x.z") = false :=
  ⟨rfl, rfl, rfl⟩

/-- C4 amended: when the existence probe for the canonical name fails
(returns `None` or raises), `register` completes without error and
leaves the registry unchanged — no node under the shadow name — and a
later attribute access on that shadow name fails with the generic
`ModuleNotFoundError` for the shadow name, which is not the
`ResolutionError` of the compatibility layer. -/
theorem register_missing_canonical_no_node (env : Env) (sysm : SysModules)
    (s c a : String)
    (hnew : alookup s sysm = none)
    (hspec : env.findSpec c ≠ .ok true) :
    registerEntry env sysm s c = sysm
      ∧ accessAttr env (registerEntry env sysm s c) s a
          = .error (.moduleNotFound s)
      ∧ isResolutionError (.moduleNotFound s) = false := by
  have hno : registerEntry env sysm s c = sysm := by
    unfold registerEntry
    rw [hnew]
    simp only [Option.isSome_none, Bool.false_eq_true, if_false]
    cases hf : env.findSpec c with
    | error e => rfl
    | ok b =>
      cases b with
      | false => rfl
      | true => exact absurd hf hspec
  refine ⟨hno, ?_, rfl⟩
  rw [hno]
  unfold accessAttr
  rw [hnew]

theorem register_missing_canonical_no_node_witness :
    registerEntry envC4 [("aiexec", .real "aiexec" [])] "x.z" "p.missing"
        = [("aiexec", .real "aiexec" [])]
      ∧ accessAttr envC4
          (registerEntry envC4 [("aiexec", .real "aiexec" [])] "x.z"
            "p.missing") "x.z" "VALUE"
          = .error (.moduleNotFound "x.z")
      ∧ isResolutionError (.moduleNotFound "x.z") = false :=
  register_missing_canonical_no_node envC4 [("aiexec", .real "aiexec" [])]
    "x.z" "p.missing" "VALUE" rfl (by simp [envC4])

/-- File system for the C7 counterexample: the override file exists and
yields a loader spec, but executing it fails (with one of the caught
exception types). -/
def fsC7 : FS := ⟨fun _ => true, fun _ => true, fun _ => none⟩

/-- C7 counterexample: when executing the override file fails, the
registry is NOT left without an entry for the shadow name — the module
was inserted into `sys.modules` before `exec_module`, and the caught
exception leaves that fresh, never-executed module registered. -/
theorem physical_override_not_atomic :
    alookup "aiexec.base.data.kb_utils"
        (registerPhysicalOverride fsC7 [] "aiexec.base.data.kb_utils"
          "base/data/kb_utils.py" "aiexec.base.data" "kb_utils")
      = some (.real "aiexec.base.data.kb_utils" []) := rfl

/-- C7 amended: the silent-skip half of the claim holds — a missing file
or an unusable loader spec registers nothing, and an execution failure
propagates no error — but the override is not atomic on execution
failure: the partially-initialized module inserted before `exec_module`
remains in the registry under the shadow name. -/
theorem physical_override_failure_modes (fs : FS) (sysm : SysModules)
    (s p pn seg : String) (hnew : alookup s sysm = none) :
    (fs.pathExists p = false →
       registerPhysicalOverride fs sysm s p pn seg = sysm)
      ∧ (fs.specOk p = false →
           registerPhysicalOverride fs sysm s p pn seg = sysm)
      ∧ (fs.pathExists p = true → fs.specOk p = true →
           fs.execModule p = none →
             alookup s (registerPhysicalOverride fs sysm s p pn seg)
               = some (.real s [])) := by
  have hg : (alookup s sysm).isSome = false := by rw [hnew]; rfl
  refine ⟨?_, ?_, ?_⟩
  · intro hpe
    unfold registerPhysicalOverride
    rw [hg]
    simp [hpe]
  · intro hso
    unfold registerPhysicalOverride
    rw [hg]
    simp [hso]
  · intro hpe hso hex
    unfold registerPhysicalOverride
    rw [hg]
    simp only [Bool.false_eq_true, if_false, hpe, hso, hex, if_true]
    exact alookup_insert_self sysm s (.real s [])

theorem physical_override_failure_modes_witness :
    alookup "aiexec.base.data.kb_utils"
        (registerPhysicalOverride fsC7 [] "aiexec.base.data.kb_utils"
          "base/data/kb_utils.py" "aiexec.base.data" "kb_utils")
      = some (.real "aiexec.base.data.kb_utils" []) :=
  (physical_override_failure_modes fsC7 [] "aiexec.base.data.kb_utils"
      "base/data/kb_utils.py" "aiexec.base.data" "kb_utils" rfl).2.2
    rfl rfl rfl

theorem specialTopLevelAttr_lookup_self (sm : SysModules) (s : String) :
    alookup s (specialTopLevelAttr sm s) = alookup s sm := by
  unfold specialTopLevelAttr
  by_cases hsp : (s = "aiexec.base" ∨ s = "aiexec.inputs"
      ∨ s = "aiexec.schema" ∨ s = "aiexec.template"
      ∨ s = "aiexec.components")
  · rw [if_pos hsp]
    have hne : s ≠ "aiexec" := by
      rcases hsp with h | h | h | h | h <;> subst h <;> decide
    cases hp : alookup "aiexec" sm with
    | none => rfl
    | some pm => exact alookup_insert_ne sm _ hne
  · rw [if_neg hsp]

theorem specialTopLevelAttr_parent_of (s : String)
    (hsp : s = "aiexec.base" ∨ s = "aiexec.inputs" ∨ s = "aiexec.schema"
      ∨ s = "aiexec.template" ∨ s = "aiexec.components") :
    parentOf s = "aiexec" := by
  rcases hsp with h | h | h | h | h <;> subst h <;> decide

theorem specialTopLevelAttr_attr (sm : SysModules) (s : String)
    (pm : PyModule)
    (hp : alookup (parentOf s) sm = some pm)
    (ha : moduleAttrLookup pm (lastSeg s) = some (.module s)) :
    ∃ pm', alookup (parentOf s) (specialTopLevelAttr sm s) = some pm'
      ∧ moduleAttrLookup pm' (lastSeg s) = some (.module s) := by
  unfold specialTopLevelAttr
  by_cases hsp : (s = "aiexec.base" ∨ s = "aiexec.inputs"
      ∨ s = "aiexec.schema" ∨ s = "aiexec.template"
      ∨ s = "aiexec.components")
  · rw [if_pos hsp]
    have hpar := specialTopLevelAttr_parent_of s hsp
    rw [hpar] at hp ⊢
    rw [hp]
    exact ⟨_, alookup_insert_self _ _ _, moduleAttrLookup_setAttr_self _ _ _⟩
  · rw [if_neg hsp]
    exact ⟨pm, hp, ha⟩

theorem specialTopLevelAttr_parent_none (sm : SysModules) (s : String)
    (h : alookup (parentOf s) sm = none) :
    alookup (parentOf s) (specialTopLevelAttr sm s) = none := by
  unfold specialTopLevelAttr
  by_cases hsp : (s = "aiexec.base" ∨ s = "aiexec.inputs"
      ∨ s = "aiexec.schema" ∨ s = "aiexec.template"
      ∨ s = "aiexec.components")
  · rw [if_pos hsp]
    have hpar := specialTopLevelAttr_parent_of s hsp
    rw [hpar] at h ⊢
    rw [h]
    exact h
  · rw [if_neg hsp]
    exact h

/-- C8: a successful registration (shadow name not yet registered,
existence probe positive, dotted name with a parent segment) installs
the compatibility module in the registry under its absolute dotted name
unconditionally; the attribute for its last segment is set on its parent
exactly when the parent is already registered at that moment — when the
parent is absent, no error occurs, the node is still reachable by
absolute lookup, and no parent entry materializes for attribute
traversal. -/
theorem register_installs_and_links (env : Env) (sysm : SysModules)
    (s c : String)
    (hnew : alookup s sysm = none)
    (hspec : env.findSpec c = .ok true)
    (hdepth : (splitDots s).length > 1)
    (hpne : parentOf s ≠ s) :
    alookup s (registerEntry env sysm s c)
        = some (.compat (mkCompat s c))
      ∧ (∀ pm, alookup (parentOf s) sysm = some pm →
           ∃ pm', alookup (parentOf s) (registerEntry env sysm s c)
               = some pm'
             ∧ moduleAttrLookup pm' (lastSeg s) = some (.module s))
      ∧ (alookup (parentOf s) sysm = none →
           alookup (parentOf s) (registerEntry env sysm s c) = none) := by
  have hg : (alookup s sysm).isSome = false := by rw [hnew]; rfl
  have hins : alookup (parentOf s)
        (alistInsert sysm s (.compat (mkCompat s c)))
      = alookup (parentOf s) sysm :=
    alookup_insert_ne sysm _ hpne
  cases hpar : alookup (parentOf s) sysm with
  | some pm =>
    have hform : registerEntry env sysm s c
        = specialTopLevelAttr
            (alistInsert (alistInsert sysm s (.compat (mkCompat s c)))
              (parentOf s) (moduleSetAttr pm (lastSeg s) (.module s))) s := by
      unfold registerEntry
      rw [hg]
      simp only [Bool.false_eq_true, if_false, hspec, if_pos hdepth, hins,
        hpar]
    rw [hform]
    refine ⟨?_, ?_, ?_⟩
    · rw [specialTopLevelAttr_lookup_self,
        alookup_insert_ne _ _ (Ne.symm hpne)]
      exact alookup_insert_self _ _ _
    · intro pm0 hpm0
      injection hpm0 with hpm0
      subst hpm0
      exact specialTopLevelAttr_attr _ s _ (alookup_insert_self _ _ _)
        (moduleAttrLookup_setAttr_self _ _ _)
    · intro hn
      exact Option.noConfusion hn
  | none =>
    have hform : registerEntry env sysm s c
        = specialTopLevelAttr (alistInsert sysm s (.compat (mkCompat s c)))
            s := by
      unfold registerEntry
      rw [hg]
      simp only [Bool.false_eq_true, if_false, hspec, if_pos hdepth, hins,
        hpar]
    rw [hform]
    refine ⟨?_, ?_, ?_⟩
    · rw [specialTopLevelAttr_lookup_self]
      exact alookup_insert_self _ _ _
    · intro pm hpm
      exact Option.noConfusion hpm
    · intro _
      apply specialTopLevelAttr_parent_none
      rw [hins]
      exact hpar

/-- Environment for the C8 witness: every existence probe succeeds. -/
def envC8 : Env := ⟨fun _ => .ok true, fun _ => none⟩

/-- Registry fixture for the C8 witness: only the executing `aiexec`
package is present. -/
def sysmC8 : SysModules := [("aiexec", .real "aiexec" [])]

theorem register_installs_and_links_witness :
    alookup "aiexec.base" (registerEntry envC8 sysmC8 "aiexec.base"
        "lfx.base")
      = some (.compat (mkCompat "aiexec.base" "lfx.base")) :=
  (register_installs_and_links envC8 sysmC8 "aiexec.base" "lfx.base" rfl
      rfl (by decide) (by decide)).1
